import Mathlib

/-!
# Quiz session controller and anti-cheat monitor: a shallow embedding

Shallow embedding of the quiz-taking core of `app.js` (the maviyaattar/Quiz
repository).  The file contains two near-duplicate variants of the session
logic; we embed both where the claims reference both:

* Variant 1 ("localStorage variant", `app.js` lines ~190–460): `submitJoinCode`,
  `submitJoinDetails`, `fetchQuiz`, `startQuiz`, `loadQuestion`, `selectOption`,
  `navigateQuestion`, `startTimer` (its interval body is embedded as `tick`),
  `submitQuiz`, `showResults`, `setupAntiCheat` (its visibilitychange handler
  is embedded as `visibilitySignal`).
* Variant 2 ("mock-backend variant", `app.js` lines ~1080–1380): only the parts
  claims reference — `fetchQuiz` (question sanitization and deadline-based
  timer initialization) is embedded as `fetchQuizV2`.

Modelling conventions:
* The ambient mutable `state` object becomes the `AppState` structure, passed
  and returned explicitly.
* DOM rendering, CSS classes and alert auto-removal are out of scope (the spec
  declares them UI plumbing); alerts raised are recorded in `AppState.alerts`
  as (message, type) pairs so that error reporting is observable.
* `localStorage` results for the current quiz code become `AppState.results`;
  whether `localStorage.setItem` succeeds is the explicit `persistOk` argument
  of `submitQuiz` (a quota error makes it throw).
* The `confirm(...)` dialog of a manual submit is the explicit `confirmed`
  argument.
* `setInterval`/`clearInterval` become the `timerActive` flag: the interval
  body (`tick`) is a no-op once the interval has been cleared.
* `setTimeout(() => submitQuiz(true), 2000)` scheduled by the anti-cheat
  monitor is recorded as a pending forced-submit request (its delay in ms) in
  `AppState.pendingForcedSubmits`.
* `AppState.submitCalls` is a ghost log of the `autoSubmit` flag of every
  invocation of `submitQuiz`; it instruments the embedding (no source effect).
* JS numbers holding integer counters are embedded as `Int`/`Nat`; the one
  fractional computation, `Math.round((score / total) * 100)`, is embedded
  exactly over `ℚ` (`jsRound`), with `none` standing for the `NaN` produced
  when `total = 0`.
-/

/-- A question as stored by a quiz creator (`quiz.questions` entries in
storage): text, options and the 0-based correct-option index. -/
structure Question where
  text : String
  options : List String
  correctAnswer : Nat
deriving Repr, DecidableEq

/-- A question object as placed into `state.questions` by a join path.  JS
objects are field dictionaries, so an absent `correctAnswer` field
(the sanitized form produced by the mock-backend `fetchQuiz`) is `none`,
while the localStorage `fetchQuiz` keeps the field (`some`). -/
structure StoredQuestion where
  text : String
  options : List String
  correctAnswer : Option Nat
deriving Repr, DecidableEq

/-- A quiz record in the quizzes store.  `isActive`/`endTime` only exist on the
mock-backend variant's records; for the localStorage variant they are unused.
`endTime` is a millisecond timestamp. -/
structure Quiz where
  code : String
  title : String
  description : String
  timeLimit : Nat
  questions : List Question
  isActive : Bool
  endTime : Option Int
deriving Repr, DecidableEq

/-- Participant details captured by `submitJoinDetails`. -/
structure Participant where
  name : String
  roll : String
  branch : String
deriving Repr, DecidableEq

/-- The subset of quiz fields copied into `state.currentQuiz` on join. -/
structure CurrentQuiz where
  title : String
  description : String
  timeLimit : Nat
  endTime : Option Int
deriving Repr, DecidableEq

/-- A result entry pushed into the results store by `submitQuiz`
(`app.js:380-391`). -/
structure ResultEntry where
  name : String
  roll : String
  branch : String
  score : Nat
  total : Nat
  answers : List (Nat × Nat)
deriving Repr, DecidableEq

/-- The ambient `state` object of `app.js`, plus the observable effects the
claims are about (persisted results, raised alerts, scheduled forced submits,
the displayed result, and a ghost log of `submitQuiz` invocations). -/
structure AppState where
  currentPage : String
  quizCode : Option String
  participant : Option Participant
  currentQuiz : Option CurrentQuiz
  questions : List StoredQuestion
  currentQuestionIndex : Nat
  answers : List (Nat × Nat)
  timerActive : Bool
  timeRemaining : Int
  tabSwitchCount : Nat
  results : List ResultEntry
  alerts : List (String × String)
  pendingForcedSubmits : List Nat
  mockParticipants : List Participant
  resultShown : Option (Nat × Nat)
  submitCalls : List Bool
deriving Repr, DecidableEq

/-- The initial `state` literal of `app.js:1-15` (landing page, nothing
loaded), with the observable-effect fields empty. -/
def initialState : AppState where
  currentPage := "landingPage"
  quizCode := none
  participant := none
  currentQuiz := none
  questions := []
  currentQuestionIndex := 0
  answers := []
  timerActive := false
  timeRemaining := 0
  tabSwitchCount := 0
  results := []
  alerts := []
  pendingForcedSubmits := []
  mockParticipants := []
  resultShown := none
  submitCalls := []

/-- The question object the localStorage `fetchQuiz` places into
`state.questions` (`app.js:236`): the raw stored question, the `correctAnswer`
field included. -/
def storedOf (q : Question) : StoredQuestion :=
  { text := q.text, options := q.options, correctAnswer := some q.correctAnswer }

/-- The question object the mock-backend `fetchQuiz` places into
`state.questions` (`app.js:1148-1151`): text and options only. -/
def sanitizedOf (q : Question) : StoredQuestion :=
  { text := q.text, options := q.options, correctAnswer := none }

/-- ASCII whitespace for the embedding of JS `String.prototype.trim` (the
inputs in play are form fields; the further Unicode space characters JS also
trims are not needed to state any claim). -/
def isJsWhitespace (c : Char) : Bool :=
  c = ' ' ∨ c = '\t' ∨ c = '\n' ∨ c = '\r'

/-- JS `.trim()`: strip leading and trailing whitespace. -/
def jsTrim (s : String) : String :=
  ⟨((s.data.dropWhile isJsWhitespace).reverse.dropWhile isJsWhitespace).reverse⟩

/-- `showAlert(message, type)` (`app.js:159-181`): record the raised alert. -/
def showAlert (message type_ : String) (s : AppState) : AppState :=
  { s with alerts := s.alerts ++ [(message, type_)] }

/-- `navigateTo(pageId)` (`app.js:136-156`): the state effect is setting
`state.currentPage` (page-specific dashboard loading is out of scope). -/
def navigateTo (pageId : String) (s : AppState) : AppState :=
  { s with currentPage := pageId }

/-- Assignment `state.answers[q] = a` on the JS answers object: overwrite the
value if the key is present (keeping its position), else append the pair. -/
def setAnswer (answers : List (Nat × Nat)) (q a : Nat) : List (Nat × Nat) :=
  match answers with
  | [] => [(q, a)]
  | (k, v) :: rest =>
      if k = q then (k, a) :: rest else (k, v) :: setAnswer rest q a

/-- `loadQuestion(index)` (`app.js:263-300`): bail out if the index is out of
range, otherwise set the cursor (DOM updates are out of scope). -/
def loadQuestion (index : Int) (s : AppState) : AppState :=
  if index < 0 ∨ (s.questions.length : Int) ≤ index then s
  else { s with currentQuestionIndex := index.toNat }

/-- `selectOption(optionIndex)` (`app.js:302-309`): unconditionally record the
option for the current cursor question. -/
def selectOption (optionIndex : Nat) (s : AppState) : AppState :=
  { s with answers := setAnswer s.answers s.currentQuestionIndex optionIndex }

/-- `navigateQuestion(direction)` (`app.js:311-314`). -/
def navigateQuestion (direction : Int) (s : AppState) : AppState :=
  loadQuestion ((s.currentQuestionIndex : Int) + direction) s

/-- The score/answers-array accumulation of `submitQuiz` (`app.js:354-370`):
`state.questions.forEach((question, index) => ...)` starting at index `i`.
An answered question is pushed onto the answers array; the score counts
answers strictly equal (`===`) to the stored `correctAnswer` field (an
absent field, `none`, never equals a number). -/
def scoreAux (answers : List (Nat × Nat)) :
    Nat → List StoredQuestion → Nat × List (Nat × Nat)
  | _, [] => (0, [])
  | i, q :: rest =>
      match answers.lookup i with
      | none => scoreAux answers (i + 1) rest
      | some ua =>
          let r := scoreAux answers (i + 1) rest
          (if q.correctAnswer = some ua then r.1 + 1 else r.1, (i, ua) :: r.2)

/-- `Math.round(x)` on a non-negative JS number: round half away from zero,
i.e. `⌊x + 1/2⌋`.  The embedding computes it exactly over `ℚ`. -/
def jsRound (x : ℚ) : ℤ := ⌊x + 1 / 2⌋

/-- `Math.round((score / total) * 100)` (`app.js:403`); `none` is the `NaN`
the division produces when `total = 0`. -/
def percentOf (score total : Nat) : Option ℤ :=
  if total = 0 then none else some (jsRound ((score : ℚ) / total * 100))

/-- `showResults(score, total)` (`app.js:400-413`): navigate to the results
page, display the score, and reset answers, cursor and tab-switch counter. -/
def showResults (score total : Nat) (s : AppState) : AppState :=
  { navigateTo "resultsPage" s with
      resultShown := some (score, total)
      answers := []
      currentQuestionIndex := 0
      tabSwitchCount := 0 }

/-- `submitQuiz(autoSubmit)` (`app.js:341-398`), localStorage variant.
`confirmed` is the result of the `confirm(...)` dialog; `persistOk` is whether
`localStorage.setItem` succeeds (it throws on failure, landing in the `catch`
block before `showResults` is reached). -/
def submitQuiz (autoSubmit confirmed persistOk : Bool) (s : AppState) : AppState :=
  if ¬autoSubmit ∧ ¬confirmed then s
  else
    let s := { s with timerActive := false
                      submitCalls := s.submitCalls ++ [autoSubmit] }
    let r := scoreAux s.answers 0 s.questions
    let score := r.1
    let answersArray := r.2
    let totalQuestions := s.questions.length
    if persistOk then
      let entry : ResultEntry :=
        { name := (s.participant.map Participant.name).getD ""
          roll := (s.participant.map Participant.roll).getD ""
          branch := (s.participant.map Participant.branch).getD ""
          score := score
          total := totalQuestions
          answers := answersArray }
      showResults score totalQuestions { s with results := s.results ++ [entry] }
    else
      showAlert "Failed to submit quiz" "error" s

/-- The `setInterval` body of `startTimer` (`app.js:316-339`): a no-op once the
interval has been cleared; otherwise decrement the remaining time and, at
`<= 0`, clear the interval and auto-submit.  `persistOk` is threaded to the
triggered `submitQuiz`. -/
def tick (persistOk : Bool) (s : AppState) : AppState :=
  if ¬s.timerActive then s
  else
    let s := { s with timeRemaining := s.timeRemaining - 1 }
    if s.timeRemaining ≤ 0 then
      submitQuiz true false persistOk { s with timerActive := false }
    else s

/-- `n` firings of the timer interval. -/
def tickN (persistOk : Bool) : Nat → AppState → AppState
  | 0, s => s
  | n + 1, s => tickN persistOk n (tick persistOk s)

/-- `startQuiz()` (`app.js:247-261`): go to the quiz page, start the timer,
load the first question. -/
def startQuiz (s : AppState) : AppState :=
  loadQuestion 0 { navigateTo "quizPage" s with timerActive := true }

/-- `submitJoinCode(event)` (`app.js:191-202`): trim the entered code, reject
any length other than 6, otherwise store it and move to the details page. -/
def submitJoinCode (rawCode : String) (s : AppState) : AppState :=
  let code := jsTrim rawCode
  if code.length ≠ 6 then
    showAlert "Please enter a valid 6-digit code" "error" s
  else
    navigateTo "joinDetailsPage" { s with quizCode := some code }

/-- `fetchQuiz()` (`app.js:218-245`), localStorage variant: look the quiz up by
code; on failure alert and return to the join page; on success copy the quiz
header, store the raw question objects (the `correctAnswer` field included),
initialize the remaining time from the quiz time limit and start the quiz. -/
def fetchQuiz (quizzes : List Quiz) (s : AppState) : AppState :=
  let s := showAlert "Loading quiz..." "success" s
  let found : Option Quiz := match s.quizCode with
    | none => none
    | some c => quizzes.find? (fun q => q.code == c)
  match found with
  | none =>
      navigateTo "joinPage"
        (showAlert "Quiz not found. Try code: 123456 or 789012" "error" s)
  | some quiz =>
      startQuiz
        { s with
            currentQuiz := some
              { title := quiz.title
                description := quiz.description
                timeLimit := quiz.timeLimit
                endTime := none }
            questions := quiz.questions.map storedOf
            timeRemaining := (quiz.timeLimit : Int) }

/-- `submitJoinDetails(event)` (`app.js:204-216`): record the participant, then
fetch the quiz. -/
def submitJoinDetails (name roll branch : String) (quizzes : List Quiz)
    (s : AppState) : AppState :=
  fetchQuiz quizzes
    { s with participant := some ⟨jsTrim name, jsTrim roll, jsTrim branch⟩ }

/-- `fetchQuiz()` (`app.js:1112-1168`), mock-backend variant: the quiz must
exist and be active; the participant is pushed to the participants store; the
questions are stored sanitized (text and options only, `correctAnswer`
dropped); the remaining time comes from the quiz `endTime` deadline when
present (`Math.max(0, Math.floor((endTime - now) / 1000))`), else the
10-minute default. -/
def fetchQuizV2 (quizzes : List Quiz) (now : Int) (s : AppState) : AppState :=
  let s := showAlert "Loading quiz..." "success" s
  let found : Option Quiz := match s.quizCode with
    | none => none
    | some c => quizzes.find? (fun q => q.code == c)
  match found with
  | none =>
      navigateTo "joinPage" (showAlert "Quiz not found or not active" "error" s)
  | some quiz =>
      if ¬quiz.isActive then
        navigateTo "joinPage"
          (showAlert "Quiz not found or not active" "error" s)
      else
        let s := { s with
          mockParticipants := s.mockParticipants ++ s.participant.toList }
        startQuiz
          { s with
              currentQuiz := some
                { title := quiz.title
                  description := quiz.description
                  timeLimit := quiz.timeLimit
                  endTime := quiz.endTime }
              questions := quiz.questions.map sanitizedOf
              timeRemaining :=
                match quiz.endTime with
                | some endTime => max 0 ((endTime - now).fdiv 1000)
                | none => 600 }

/-- The `visibilitychange` handler installed by `setupAntiCheat`
(`app.js:416-429`): while on the quiz page, a visible→hidden transition
increments the tab-switch counter and warns; from 3 switches on it schedules a
forced submit after a 2000 ms grace delay. -/
def visibilitySignal (hidden : Bool) (s : AppState) : AppState :=
  if s.currentPage = "quizPage" ∧ hidden then
    let s := { s with tabSwitchCount := s.tabSwitchCount + 1 }
    let s := showAlert
      ("Tab switch detected! Count: " ++ toString s.tabSwitchCount) "warning" s
    if 3 ≤ s.tabSwitchCount then
      { showAlert "Too many tab switches! Auto-submitting quiz." "error" s with
          pendingForcedSubmits := s.pendingForcedSubmits ++ [2000] }
    else s
  else s

/-- The reference scoring definition, taken from the spec's words: the number
of question indices whose recorded selected-option index equals that
question's correct-option index. -/
def isCorrectAt (qs : List Question) (answers : List (Nat × Nat)) (i : Nat) :
    Bool :=
  match qs[i]?, answers.lookup i with
  | some q, some a => a == q.correctAnswer
  | _, _ => false

/-- Reference correct count (spec §4.1/§8): count over all question indices. -/
def refCorrectCount (qs : List Question) (answers : List (Nat × Nat)) : Nat :=
  ((List.range qs.length).filter (isCorrectAt qs answers)).length

/-- Helper predicate for the scoring proof: whether the answer recorded for
absolute index `i + j` is correct for question `j` of `qs`. -/
def hitAt (answers : List (Nat × Nat)) (qs : List Question) (i j : Nat) :
    Bool :=
  match qs[j]?, answers.lookup (i + j) with
  | some q, some a => a == q.correctAnswer
  | _, _ => false

/-- Timer-session invariant: the remaining time never went below `-1`, an
uncancelled interval means the remaining time is still non-negative and no
auto-submit has fired yet, and at most one auto-submit ever fires. -/
def tickInv (s : AppState) : Prop :=
  -1 ≤ s.timeRemaining
    ∧ (s.timerActive = true → 0 ≤ s.timeRemaining ∧ s.submitCalls.count true = 0)
    ∧ s.submitCalls.count true ≤ 1

instance (s : AppState) : Decidable (tickInv s) := by
  unfold tickInv
  infer_instance

/-! Concrete sample data (drawn from the sample quizzes seeded by
`initializeMockData`, `app.js:29-106`) used by witnesses and counterexamples. -/

/-- First sample question of the seeded "JavaScript Basics" quiz. -/
def qA : Question :=
  { text := "What is the output of: typeof null?"
    options := ["null", "undefined", "object", "number"]
    correctAnswer := 2 }

/-- Second sample question of the seeded "JavaScript Basics" quiz. -/
def qB : Question :=
  { text := "Which method is used to add elements to the end of an array?"
    options := ["push()", "pop()", "shift()", "unshift()"]
    correctAnswer := 0 }

/-- Third sample question of the seeded "JavaScript Basics" quiz. -/
def qC : Question :=
  { text := "What does the strict equality operator do?"
    options := ["Assignment", "Comparison without type check",
                "Comparison with type check", "None of the above"]
    correctAnswer := 2 }

/-- The seeded "JavaScript Basics" sample quiz, code `123456`. -/
def sampleQuiz : Quiz :=
  { code := "123456", title := "JavaScript Basics"
    description := "Test your knowledge of JavaScript fundamentals"
    timeLimit := 600, questions := [qA, qB, qC]
    isActive := true, endTime := none }

/-- A quiz whose deadline (`endTime` = 1000 ms) is already in the past at
`now` = 5000 ms, so the mock-backend join clamps the remaining time to 0. -/
def expiredQuiz : Quiz :=
  { code := "789012", title := "Web Development Quiz"
    description := "Test your HTML, CSS, and JavaScript knowledge"
    timeLimit := 900, questions := [qA]
    isActive := true, endTime := some 1000 }

/-- A quiz with an empty question list (nothing in the join path rejects it). -/
def emptyQuiz : Quiz :=
  { code := "222222", title := "Empty", description := "no questions"
    timeLimit := 600, questions := [], isActive := true, endTime := none }

/-- A session on the quiz page right after joining `sampleQuiz`. -/
def joinedState : AppState :=
  submitJoinDetails "Alice" "1" "CS" [sampleQuiz]
    (submitJoinCode "123456" initialState)

/-- `joinedState` after answering question 0 correctly (option 2). -/
def answeredState : AppState := selectOption 2 joinedState

/-- A session that joined `expiredQuiz` through the mock-backend path at
`now` = 5000 ms: the timer starts already at 0. -/
def expiredState : AppState :=
  fetchQuizV2 [expiredQuiz] 5000 (submitJoinCode "789012" initialState)

/-- A completed-looking session (results page, one loaded question) used to
show `selectOption` is unguarded. -/
def nonActiveState : AppState :=
  { initialState with currentPage := "resultsPage", questions := [storedOf qB] }

/-! ## Helper lemmas -/

/-- Counting over `range (n+1)` splits into index `0` and the shifted rest. -/
theorem length_filter_range_succ (p : Nat → Bool) (n : Nat) :
    ((List.range (n + 1)).filter p).length
      = (if p 0 then 1 else 0)
          + ((List.range n).filter (fun j => p (j + 1))).length := by
  rw [List.range_succ_eq_map, List.filter_cons]
  by_cases h0 : p 0 = true
  · simp [h0, List.filter_map, Function.comp_def]
    omega
  · simp [h0, List.filter_map, Function.comp_def]

/-- The score accumulated by `submitQuiz` over the raw stored questions counts
exactly the hits from offset `i` on. -/
theorem scoreAux_fst_eq (ans : List (Nat × Nat)) (qs : List Question) :
    ∀ i : Nat,
      (scoreAux ans i (qs.map storedOf)).1
        = ((List.range qs.length).filter (hitAt ans qs i)).length := by
  induction qs with
  | nil => intro i; simp [scoreAux]
  | cons q rest ih =>
      intro i
      have hps : (fun j => hitAt ans (q :: rest) i (j + 1)) = hitAt ans rest (i + 1) := by
        funext j
        have harith : i + (j + 1) = i + 1 + j := by omega
        simp only [hitAt, List.getElem?_cons_succ, harith]
      have hp0 : hitAt ans (q :: rest) i 0
          = match ans.lookup (i + 0) with
            | some a => a == q.correctAnswer
            | none => false := by
        simp only [hitAt, List.getElem?_cons_zero]
        cases ans.lookup (i + 0) <;> rfl
      rw [List.map_cons, List.length_cons, length_filter_range_succ]
      simp only [hps]
      rcases h : ans.lookup i with _ | ua
      · have h0 : hitAt ans (q :: rest) i 0 = false := by
          rw [hp0]; simp [h]
        simp [scoreAux, h, h0, ih]
      · have h0 : hitAt ans (q :: rest) i 0 = (ua == q.correctAnswer) := by
          rw [hp0]; simp [h]
        by_cases hqa : q.correctAnswer = ua
        · have hb : (ua == q.correctAnswer) = true := by simp [hqa]
          have hs : (storedOf q).correctAnswer = some ua := by simp [storedOf, hqa]
          simp only [scoreAux, h, h0, hb, hs, if_true, if_pos rfl, ih]
          omega
        · have hb : (ua == q.correctAnswer) = false := by
            simp [beq_eq_false_iff_ne]
            exact fun hcontra => hqa hcontra.symm
          have hs : ¬ (storedOf q).correctAnswer = some ua := by
            simp [storedOf, hqa]
          simp [scoreAux, h, h0, hb, hs, ih]

/-- The reference count is the hit count at offset 0. -/
theorem refCorrectCount_eq (qs : List Question) (ans : List (Nat × Nat)) :
    refCorrectCount qs ans
      = ((List.range qs.length).filter (hitAt ans qs 0)).length := by
  unfold refCorrectCount
  congr 1
  apply List.filter_congr
  intro j _
  simp only [isCorrectAt, hitAt, Nat.zero_add]

/-- `submitQuiz`'s score over raw stored questions equals the spec's reference
correct count. -/
theorem scoreAux_eq_refCorrectCount (ans : List (Nat × Nat)) (qs : List Question) :
    (scoreAux ans 0 (qs.map storedOf)).1 = refCorrectCount qs ans := by
  rw [refCorrectCount_eq, scoreAux_fst_eq]

/-- With an empty answers map every question is unanswered: score 0, no
answers-array entries. -/
theorem scoreAux_nil (i : Nat) (qs : List StoredQuestion) :
    scoreAux [] i qs = (0, []) := by
  induction qs generalizing i with
  | nil => rfl
  | cons q rest ih => simp [scoreAux, List.lookup, ih]

/-- Re-answering the same question overwrites the prior answer: the two
consecutive writes collapse to the last one. -/
theorem setAnswer_setAnswer (ans : List (Nat × Nat)) (q o1 o2 : Nat) :
    setAnswer (setAnswer ans q o1) q o2 = setAnswer ans q o2 := by
  induction ans with
  | nil => simp [setAnswer]
  | cons kv rest ih =>
      obtain ⟨k, v⟩ := kv
      by_cases h : k = q <;> simp [setAnswer, h, ih]

/-- Looking up a just-written key returns the written value. -/
theorem lookup_setAnswer_self (ans : List (Nat × Nat)) (q a : Nat) :
    (setAnswer ans q a).lookup q = some a := by
  induction ans with
  | nil => simp [setAnswer, List.lookup]
  | cons kv rest ih =>
      obtain ⟨k, v⟩ := kv
      by_cases h : k = q
      · simp [setAnswer, h, List.lookup]
      · have hb : (q == k) = false := by
          simp [beq_eq_false_iff_ne]
          exact fun hc => h hc.symm
        simp [setAnswer, h, List.lookup, hb, ih]

/-! ## Claim theorems -/

/-- C1: for every quiz and every recorded answer map, `submitQuiz` computes the
Score as the reference definition — the correct count is the number of question
indices whose recorded selected-option index equals that question's
correct-option index, the total is the quiz's question count, unanswered
questions (absent from the answer map) count as incorrect without any error —
and for a non-empty quiz the percentage is `round(100 * correct / total)`,
which gives 33 for correct 1 of 3 and 67 for correct 2 of 3. -/
theorem submit_computes_reference_score
    (qs : List Question) (autoSubmit confirmed : Bool) (s : AppState)
    (hq : s.questions = qs.map storedOf)
    (hgate : autoSubmit = true ∨ confirmed = true) :
    (submitQuiz autoSubmit confirmed true s).resultShown
        = some (refCorrectCount qs s.answers, qs.length)
      ∧ (qs.length ≠ 0 →
          percentOf (refCorrectCount qs s.answers) qs.length
            = some (jsRound
                (100 * (refCorrectCount qs s.answers : ℚ) / qs.length)))
      ∧ percentOf 1 3 = some 33 ∧ percentOf 2 3 = some 67 := by
  refine ⟨?_, ?_, ?_, ?_⟩
  · rcases hgate with h | h <;> subst h <;>
      simp [submitQuiz, hq, showResults, navigateTo, scoreAux_eq_refCorrectCount]
  · intro h
    rw [percentOf, if_neg h]
    have harg : (refCorrectCount qs s.answers : ℚ) / qs.length * 100
        = 100 * (refCorrectCount qs s.answers : ℚ) / qs.length := by ring
    rw [harg]
  · rw [percentOf]; norm_num [jsRound]
  · rw [percentOf]; norm_num [jsRound]

/-- Witness for C1: the sample three-question quiz with only question 0
answered (correctly) scores 1 of 3. -/
theorem submit_computes_reference_score_witness :
    (answeredState.questions = [qA, qB, qC].map storedOf
        ∧ (true = true ∨ false = true))
      ∧ ((submitQuiz true false true answeredState).resultShown
            = some (refCorrectCount [qA, qB, qC] answeredState.answers,
                    [qA, qB, qC].length)
          ∧ ([qA, qB, qC].length ≠ 0 →
              percentOf (refCorrectCount [qA, qB, qC] answeredState.answers)
                  [qA, qB, qC].length
                = some (jsRound
                    (100 * (refCorrectCount [qA, qB, qC] answeredState.answers : ℚ)
                      / [qA, qB, qC].length)))
          ∧ percentOf 1 3 = some 33 ∧ percentOf 2 3 = some 67) :=
  ⟨⟨by decide, Or.inl rfl⟩,
    submit_computes_reference_score [qA, qB, qC] true false answeredState
      (by decide) (Or.inl rfl)⟩

/-- `loadQuestion` only moves the cursor: every other field is unchanged. -/
theorem loadQuestion_frame (i : Int) (t : AppState) :
    (loadQuestion i t).questions = t.questions
      ∧ (loadQuestion i t).answers = t.answers
      ∧ (loadQuestion i t).currentPage = t.currentPage
      ∧ (loadQuestion i t).timerActive = t.timerActive
      ∧ (loadQuestion i t).timeRemaining = t.timeRemaining
      ∧ (loadQuestion i t).participant = t.participant
      ∧ (loadQuestion i t).currentQuiz = t.currentQuiz
      ∧ (loadQuestion i t).results = t.results
      ∧ (loadQuestion i t).alerts = t.alerts := by
  unfold loadQuestion
  split <;> simp

/-- C2, counterexample: through the localStorage join path the question data
handed to the presentation layer still carries every correct-option index —
on the seeded sample quiz the in-progress attempt's `state.questions` hold
`some 2, some 0, some 2`, not `none`. -/
theorem fetchQuiz_exposes_correct_answers_counterexample :
    joinedState.currentPage = "quizPage"
      ∧ joinedState.questions.map StoredQuestion.correctAnswer
          = [some 2, some 0, some 2]
      ∧ joinedState.questions.all (fun q => q.correctAnswer == none) = false := by
  decide

/-- C2, amended: only the mock-backend join path sanitizes — `fetchQuizV2`
stores every question as text and options with the correct-option index
removed, while the localStorage `fetchQuiz` stores the raw question objects,
each with its correct-option index. -/
theorem fetchQuiz_sanitization_by_variant
    (quizzes : List Quiz) (now : Int) (s : AppState) (c : String) (quiz : Quiz)
    (hc : s.quizCode = some c)
    (hfind : quizzes.find? (fun q => q.code == c) = some quiz)
    (hactive : quiz.isActive = true) :
    (fetchQuizV2 quizzes now s).questions = quiz.questions.map sanitizedOf
      ∧ (∀ sq ∈ (fetchQuizV2 quizzes now s).questions, sq.correctAnswer = none)
      ∧ (fetchQuiz quizzes s).questions = quiz.questions.map storedOf := by
  refine ⟨?_, ?_, ?_⟩
  · simp [fetchQuizV2, showAlert, hc, hfind, hactive, startQuiz, navigateTo,
      (loadQuestion_frame _ _).1]
  · simp [fetchQuizV2, showAlert, hc, hfind, hactive, startQuiz, navigateTo,
      (loadQuestion_frame _ _).1, sanitizedOf]
  · simp [fetchQuiz, showAlert, hc, hfind, startQuiz, navigateTo,
      (loadQuestion_frame _ _).1]

/-- Witness for the amended C2 at the seeded sample quiz. -/
theorem fetchQuiz_sanitization_by_variant_witness :
    (({ initialState with quizCode := some "123456" } : AppState).quizCode
          = some "123456"
        ∧ [sampleQuiz].find? (fun q => q.code == "123456") = some sampleQuiz
        ∧ sampleQuiz.isActive = true)
      ∧ ((fetchQuizV2 [sampleQuiz] 0
              { initialState with quizCode := some "123456" }).questions
            = sampleQuiz.questions.map sanitizedOf
          ∧ (∀ sq ∈ (fetchQuizV2 [sampleQuiz] 0
                { initialState with quizCode := some "123456" }).questions,
              sq.correctAnswer = none)
          ∧ (fetchQuiz [sampleQuiz]
                { initialState with quizCode := some "123456" }).questions
            = sampleQuiz.questions.map storedOf) :=
  ⟨⟨rfl, by decide, rfl⟩,
    fetchQuiz_sanitization_by_variant [sampleQuiz] 0
      { initialState with quizCode := some "123456" } "123456" sampleQuiz
      rfl (by decide) rfl⟩

/-- C3, counterexample: `submitQuiz` is not fire-once.  After the sample
attempt is completed with Score 1/3, a second call recomputes over the reset
answer map, displays Score 0/3 and persists a second result record. -/
theorem submit_twice_counterexample :
    (submitQuiz true false true answeredState).results.length = 1
      ∧ (submitQuiz true false true answeredState).resultShown = some (1, 3)
      ∧ (submitQuiz true false true
            (submitQuiz true false true answeredState)).results.length = 2
      ∧ (submitQuiz true false true
            (submitQuiz true false true answeredState)).resultShown
          = some (0, 3) := by
  decide

/-- C3, amended: a second call to `submitQuiz` after a completed submit is not
guarded — because `showResults` reset the answer map, it recomputes a score of
0 over the full question count, persists a second result record (score 0, no
answers), and overwrites the displayed Score with `(0, questionCount)`. -/
theorem submit_after_completed_resubmits (g g2 p2 : Bool) (s : AppState) :
    (submitQuiz true g2 true (submitQuiz true g true s)).results
        = (submitQuiz true g true s).results
            ++ [{ name := (s.participant.map Participant.name).getD ""
                  roll := (s.participant.map Participant.roll).getD ""
                  branch := (s.participant.map Participant.branch).getD ""
                  score := 0
                  total := s.questions.length
                  answers := [] }]
      ∧ (submitQuiz true g2 true (submitQuiz true g true s)).resultShown
          = some (0, s.questions.length)
      ∧ (submitQuiz true g2 p2 (submitQuiz true g true s)).submitCalls
          = s.submitCalls ++ [true, true] := by
  refine ⟨?_, ?_, ?_⟩
  · simp [submitQuiz, showResults, showAlert, navigateTo, scoreAux_nil]
  · simp [submitQuiz, showResults, showAlert, navigateTo, scoreAux_nil]
  · cases p2 <;>
      simp [submitQuiz, showResults, showAlert, navigateTo, scoreAux_nil]

/-- A single interval firing preserves the timer-session invariant. -/
theorem tick_preserves_tickInv (p : Bool) (s : AppState) (h : tickInv s) :
    tickInv (tick p s) := by
  obtain ⟨h1, h2, h3⟩ := h
  by_cases ha : s.timerActive = true
  · obtain ⟨hr, hc⟩ := h2 ha
    by_cases hz : s.timeRemaining - 1 ≤ 0
    · cases p <;>
        simp [tick, ha, hz, submitQuiz, showResults, showAlert, navigateTo,
          tickInv, List.count_append, hc] <;>
        omega
    · simp [tick, ha, hz, tickInv, List.count_append, hc]
      omega
  · have ha' : s.timerActive = false := by
      cases hb : s.timerActive
      · rfl
      · exact absurd hb ha
    simp [tick, ha', tickInv]
    exact ⟨h1, h3⟩

/-- Iterated interval firings preserve the timer-session invariant. -/
theorem tickN_preserves_tickInv (p : Bool) (n : Nat) (s : AppState)
    (h : tickInv s) : tickInv (tickN p n s) := by
  induction n generalizing s with
  | zero => exact h
  | succ m ih => exact ih _ (tick_preserves_tickInv p s h)

/-- C4, counterexample: a mock-backend join against an already-expired
deadline starts the timer at remaining time 0 (the initialization clamp), and
the first interval firing then drives the counter to `-1` — the remaining-time
counter does become negative. -/
theorem tick_below_zero_counterexample :
    expiredState.timerActive = true
      ∧ expiredState.timeRemaining = 0
      ∧ (tick true expiredState).timeRemaining = -1 := by
  decide

/-- C4, amended: the remaining-time counter is clamped to ≥ 0 only at
initialization; a tick decrements it by exactly one without clamping, so it
can reach `-1` (when a tick fires at remaining time 0) but never less; the
tick that brings it to ≤ 0 cancels the interval and issues the auto-submit
(`autoSubmit = true`) exactly once — across any number of further interval
firings at most one auto-submit ever happens, since a cleared interval's tick
is a no-op. -/
theorem timer_tick_semantics (p : Bool) (n : Nat) (s : AppState)
    (hinv : tickInv s) :
    tickInv (tickN p n s)
      ∧ -1 ≤ (tickN p n s).timeRemaining
      ∧ (tickN p n s).submitCalls.count true ≤ 1
      ∧ (s.timerActive = true →
          (tick p s).timeRemaining = s.timeRemaining - 1)
      ∧ (s.timerActive = false → tick p s = s)
      ∧ (s.timerActive = true → s.timeRemaining ≤ 1 →
          (tick p s).submitCalls = s.submitCalls ++ [true]
            ∧ (tick p s).timerActive = false
            ∧ (tick p s).submitCalls.count true
                = s.submitCalls.count true + 1) := by
  have hN := tickN_preserves_tickInv p n s hinv
  refine ⟨hN, hN.1, hN.2.2, ?_, ?_, ?_⟩
  · intro ha
    by_cases hz : s.timeRemaining - 1 ≤ 0 <;>
      cases p <;>
      simp [tick, ha, hz, submitQuiz, showResults, showAlert, navigateTo]
  · intro ha
    simp [tick, ha]
  · intro ha hz
    have hz' : s.timeRemaining - 1 ≤ 0 := by omega
    cases p <;>
      simp [tick, ha, hz', submitQuiz, showResults, showAlert, navigateTo,
        List.count_append]

/-- Witness for the amended C4 at the expired-deadline session. -/
theorem timer_tick_semantics_witness :
    tickInv expiredState
      ∧ (tickInv (tickN true 3 expiredState)
          ∧ -1 ≤ (tickN true 3 expiredState).timeRemaining
          ∧ (tickN true 3 expiredState).submitCalls.count true ≤ 1
          ∧ (expiredState.timerActive = true →
              (tick true expiredState).timeRemaining
                = expiredState.timeRemaining - 1)
          ∧ (expiredState.timerActive = false → tick true expiredState = expiredState)
          ∧ (expiredState.timerActive = true → expiredState.timeRemaining ≤ 1 →
              (tick true expiredState).submitCalls
                  = expiredState.submitCalls ++ [true]
                ∧ (tick true expiredState).timerActive = false
                ∧ (tick true expiredState).submitCalls.count true
                    = expiredState.submitCalls.count true + 1)) :=
  ⟨by decide, timer_tick_semantics true 3 expiredState (by decide)⟩

/-- C5: for every delta, from any in-range cursor `navigateQuestion` leaves the
cursor inside `[0, questionCount - 1]` (an out-of-range target is simply not
loaded) and never mutates the recorded answers; in particular `navigate(-1)`
at cursor 0 stays at 0 and `navigate(+1)` at the last index stays there. -/
theorem navigate_stays_in_range (d : Int) (s : AppState)
    (h : s.currentQuestionIndex < s.questions.length) :
    (navigateQuestion d s).currentQuestionIndex < s.questions.length
      ∧ (navigateQuestion d s).answers = s.answers
      ∧ (s.currentQuestionIndex = 0 →
          (navigateQuestion (-1) s).currentQuestionIndex = 0)
      ∧ (s.currentQuestionIndex = s.questions.length - 1 →
          (navigateQuestion 1 s).currentQuestionIndex
            = s.questions.length - 1) := by
  refine ⟨?_, (loadQuestion_frame _ _).2.1, ?_, ?_⟩
  · by_cases hif : ((s.currentQuestionIndex : Int) + d < 0
        ∨ (s.questions.length : Int) ≤ (s.currentQuestionIndex : Int) + d)
    · simpa [navigateQuestion, loadQuestion, hif] using h
    · simp only [navigateQuestion, loadQuestion, hif, if_false]
      omega
  · intro h0
    have hneg : ((s.currentQuestionIndex : Int) + (-1) < 0
        ∨ (s.questions.length : Int) ≤ (s.currentQuestionIndex : Int) + (-1)) := by
      left; omega
    simp [navigateQuestion, loadQuestion, hneg, h0]
  · intro hlast
    have hover : ((s.currentQuestionIndex : Int) + 1 < 0
        ∨ (s.questions.length : Int) ≤ (s.currentQuestionIndex : Int) + 1) := by
      right; omega
    simp only [navigateQuestion, loadQuestion, if_pos hover]
    exact hlast

/-- Witness for C5 on the freshly joined sample session (cursor 0 of 3). -/
theorem navigate_stays_in_range_witness :
    joinedState.currentQuestionIndex < joinedState.questions.length
      ∧ ((navigateQuestion (-1) joinedState).currentQuestionIndex
            < joinedState.questions.length
          ∧ (navigateQuestion (-1) joinedState).answers = joinedState.answers
          ∧ (joinedState.currentQuestionIndex = 0 →
              (navigateQuestion (-1) joinedState).currentQuestionIndex = 0)
          ∧ (joinedState.currentQuestionIndex = joinedState.questions.length - 1 →
              (navigateQuestion 1 joinedState).currentQuestionIndex
                = joinedState.questions.length - 1)) :=
  ⟨by decide, navigate_stays_in_range (-1) joinedState (by decide)⟩

/-- C6, counterexample: a quiz-not-found join failure is not atomic.  With a
well-formed 6-character code and an empty quiz store, the join fails (error
alert, back on the join page, no quiz loaded) yet the participant entered in
the details form and the quiz code remain in session state. -/
theorem join_failure_partial_state_counterexample :
    (submitJoinDetails "Alice" "1" "CS" []
        (submitJoinCode "123456" initialState)).currentPage = "joinPage"
      ∧ (submitJoinDetails "Alice" "1" "CS" []
          (submitJoinCode "123456" initialState)).alerts
        = [("Loading quiz...", "success"),
           ("Quiz not found. Try code: 123456 or 789012", "error")]
      ∧ (submitJoinDetails "Alice" "1" "CS" []
          (submitJoinCode "123456" initialState)).participant
        = some ⟨"Alice", "1", "CS"⟩
      ∧ (submitJoinDetails "Alice" "1" "CS" []
          (submitJoinCode "123456" initialState)).quizCode = some "123456" := by
  decide

/-- C6, amended: a join code whose trimmed length is not 6 fails with only an
invalid-input alert and changes nothing else; a quiz-not-found failure reports
the error and returns to the join page without loading a quiz, questions or
timer — but it does leave the already-entered participant (and the previously
stored quiz code) in session state. -/
theorem join_failure_semantics (raw name roll branch : String)
    (quizzes : List Quiz) (s : AppState)
    (hlen : (jsTrim raw).length ≠ 6)
    (hnf : ∀ q ∈ quizzes, ¬s.quizCode = some q.code) :
    submitJoinCode raw s
        = showAlert ("Please enter a valid 6-digit code") "error" s
      ∧ (submitJoinDetails name roll branch quizzes s).participant
          = some ⟨jsTrim name, jsTrim roll, jsTrim branch⟩
      ∧ (submitJoinDetails name roll branch quizzes s).currentQuiz
          = s.currentQuiz
      ∧ (submitJoinDetails name roll branch quizzes s).questions = s.questions
      ∧ (submitJoinDetails name roll branch quizzes s).timerActive
          = s.timerActive
      ∧ (submitJoinDetails name roll branch quizzes s).currentPage
          = "joinPage" := by
  have hfound : (match s.quizCode with
      | none => none
      | some c => quizzes.find? (fun q => q.code == c)) = (none : Option Quiz) := by
    cases hq : s.quizCode with
    | none => rfl
    | some c =>
        apply List.find?_eq_none.mpr
        intro q hqmem
        have := hnf q hqmem
        rw [hq] at this
        simp only [beq_iff_eq]
        intro hcontra
        exact this (by rw [hcontra])
  refine ⟨?_, ?_, ?_, ?_, ?_, ?_⟩
  · simp [submitJoinCode, hlen]
  all_goals
    simp [submitJoinDetails, fetchQuiz, showAlert, navigateTo, hfound]

/-- Witness for the amended C6: code `12345` is rejected, and code `999999`
resolves no quiz in a store holding only the sample quiz. -/
theorem join_failure_semantics_witness :
    ((jsTrim ("12345")).length ≠ 6
        ∧ (∀ q ∈ [sampleQuiz],
            ¬({ initialState with quizCode := some "999999" } : AppState).quizCode
              = some q.code))
      ∧ (submitJoinCode "12345" { initialState with quizCode := some "999999" }
            = showAlert ("Please enter a valid 6-digit code") "error"
                { initialState with quizCode := some "999999" }
          ∧ (submitJoinDetails "Bob" "2" "EE" [sampleQuiz]
              { initialState with quizCode := some "999999" }).participant
            = some ⟨jsTrim ("Bob"), jsTrim ("2"), jsTrim ("EE")⟩
          ∧ (submitJoinDetails "Bob" "2" "EE" [sampleQuiz]
              { initialState with quizCode := some "999999" }).currentQuiz
            = ({ initialState with quizCode := some "999999" } : AppState).currentQuiz
          ∧ (submitJoinDetails "Bob" "2" "EE" [sampleQuiz]
              { initialState with quizCode := some "999999" }).questions
            = ({ initialState with quizCode := some "999999" } : AppState).questions
          ∧ (submitJoinDetails "Bob" "2" "EE" [sampleQuiz]
              { initialState with quizCode := some "999999" }).timerActive
            = ({ initialState with quizCode := some "999999" } : AppState).timerActive
          ∧ (submitJoinDetails "Bob" "2" "EE" [sampleQuiz]
              { initialState with quizCode := some "999999" }).currentPage
            = "joinPage") :=
  ⟨⟨by decide, by decide⟩,
    join_failure_semantics "12345" "Bob" "2" "EE" [sampleQuiz]
      { initialState with quizCode := some "999999" } (by decide) (by decide)⟩

/-- On the quiz page, a visibility-loss signal increments the tab-switch
counter by exactly one, appends a forced-submit request (2000 ms grace delay)
exactly when the new count has reached 3, and touches nothing else the
anti-cheat claims are about. -/
theorem visibilitySignal_active (t : AppState)
    (ht : t.currentPage = "quizPage") :
    (visibilitySignal true t).tabSwitchCount = t.tabSwitchCount + 1
      ∧ (visibilitySignal true t).pendingForcedSubmits
          = t.pendingForcedSubmits
              ++ (if 3 ≤ t.tabSwitchCount + 1 then [2000] else [])
      ∧ (visibilitySignal true t).currentPage = t.currentPage := by
  by_cases h3 : 3 ≤ t.tabSwitchCount + 1 <;>
    simp [visibilitySignal, ht, showAlert, h3]

/-- C7: during an Active session (quiz page) each visibility-loss signal
increments the tab-switch counter by exactly 1; three consecutive signals
schedule exactly one forced-submit request, carrying the fixed 2000 ms grace
delay (no request is pending after only two); and a further signal arriving
once the attempt is no longer on the quiz page (Completed) changes nothing. -/
theorem antiCheat_visibility_semantics (s sdone : AppState)
    (hpage : s.currentPage = "quizPage")
    (hcount : s.tabSwitchCount = 0)
    (hpend : s.pendingForcedSubmits = [])
    (hdone : ¬sdone.currentPage = "quizPage") :
    (∀ t : AppState, t.currentPage = "quizPage" →
        (visibilitySignal true t).tabSwitchCount = t.tabSwitchCount + 1)
      ∧ (visibilitySignal true (visibilitySignal true s)).pendingForcedSubmits
          = []
      ∧ (visibilitySignal true (visibilitySignal true (visibilitySignal true
            s))).pendingForcedSubmits = [2000]
      ∧ visibilitySignal true sdone = sdone := by
  have h1 := visibilitySignal_active s hpage
  have hp1 : (visibilitySignal true s).currentPage = "quizPage" :=
    h1.2.2.trans hpage
  have h2 := visibilitySignal_active (visibilitySignal true s) hp1
  have hp2 : (visibilitySignal true (visibilitySignal true s)).currentPage
      = "quizPage" := h2.2.2.trans hp1
  have h3 := visibilitySignal_active
    (visibilitySignal true (visibilitySignal true s)) hp2
  refine ⟨fun t ht => (visibilitySignal_active t ht).1, ?_, ?_, ?_⟩
  · rw [h2.2.1, h1.2.1, hpend, h1.1, hcount]
    norm_num
  · rw [h3.2.1, h2.1, h1.1, hcount, h2.2.1, h1.2.1, hpend, h1.1, hcount]
    norm_num
  · simp [visibilitySignal, hdone]

/-- Witness for C7: the joined sample session (tab-switch count 0) and the
landing-page initial state. -/
theorem antiCheat_visibility_semantics_witness :
    (joinedState.currentPage = "quizPage"
        ∧ joinedState.tabSwitchCount = 0
        ∧ joinedState.pendingForcedSubmits = []
        ∧ ¬initialState.currentPage = "quizPage")
      ∧ ((∀ t : AppState, t.currentPage = "quizPage" →
            (visibilitySignal true t).tabSwitchCount = t.tabSwitchCount + 1)
          ∧ (visibilitySignal true
              (visibilitySignal true joinedState)).pendingForcedSubmits = []
          ∧ (visibilitySignal true (visibilitySignal true (visibilitySignal true
                joinedState))).pendingForcedSubmits = [2000]
          ∧ visibilitySignal true initialState = initialState) :=
  ⟨⟨by decide, by decide, by decide, by decide⟩,
    antiCheat_visibility_semantics joinedState initialState
      (by decide) (by decide) (by decide) (by decide)⟩

/-- C8, counterexample: `selectOption` is not guarded by state or bounds
checks.  On a results-page session holding one question with 4 options, a
`selectOption 99` call still records option index 99 for the cursor question —
outside the Active state and outside the question's option range. -/
theorem selectOption_unguarded_counterexample :
    nonActiveState.currentPage = "resultsPage"
      ∧ nonActiveState.questions.map (fun q => q.options.length) = [4]
      ∧ nonActiveState.answers = []
      ∧ (selectOption 99 nonActiveState).answers = [(0, 99)] := by
  decide

/-- C8, amended: `selectOption` unconditionally records the option index for
the current cursor question, with no state or bounds check; re-answering the
same question overwrites the prior selection in place, the overwritten map
returns the last selection, and only the last selection contributes to the
computed score. -/
theorem selectOption_overwrite_semantics (s : AppState)
    (opt o1 o2 q i : Nat) (ans : List (Nat × Nat))
    (qs : List StoredQuestion) :
    selectOption opt s
        = { s with answers := setAnswer s.answers s.currentQuestionIndex opt }
      ∧ setAnswer (setAnswer ans q o1) q o2 = setAnswer ans q o2
      ∧ (setAnswer ans q o2).lookup q = some o2
      ∧ scoreAux (setAnswer (setAnswer ans q o1) q o2) i qs
          = scoreAux (setAnswer ans q o2) i qs :=
  ⟨rfl, setAnswer_setAnswer ans q o1 o2, lookup_setAnswer_self ans q o2,
    by rw [setAnswer_setAnswer]⟩

/-- C9, counterexample: when persisting the result throws, the already
computed Score is not shown at all — on the answered sample session a failing
submit leaves no displayed result and no persisted record, only the error
alert. -/
theorem persist_failure_drops_result_counterexample :
    (submitQuiz true false false answeredState).resultShown = none
      ∧ (submitQuiz true false false answeredState).results = []
      ∧ (submitQuiz true false false answeredState).alerts
          = [("Loading quiz...", "success"), ("Failed to submit quiz", "error")] := by
  decide

/-- C9, amended: if persisting the attempt record fails after the Score has
been computed, the failure is reported to the caller as an error alert and the
stored results are untouched, but the user-visible result is NOT produced: the
whole submit lands in the catch block, `showResults` never runs, and the
displayed result, answers and the rest of the session state stay as they
were (only the timer is cleared and the error is raised). -/
theorem submit_persist_failure_semantics (g : Bool) (s : AppState) :
    submitQuiz true g false s
        = showAlert ("Failed to submit quiz") "error"
            { s with timerActive := false
                     submitCalls := s.submitCalls ++ [true] }
      ∧ (submitQuiz true g false s).resultShown = s.resultShown
      ∧ (submitQuiz true g false s).results = s.results
      ∧ (submitQuiz true g false s).answers = s.answers := by
  refine ⟨?_, ?_, ?_, ?_⟩ <;> simp [submitQuiz, showAlert]

/-- C10: the join path never validates that the resolved quiz has at least one
question: joining a quiz whose question list is empty succeeds (quiz page,
timer running, no questions), a subsequent submit still completes with Score
0 of 0, and the reported percentage is the `0 / 0` division — `NaN`, not a
well-defined number (`none` in the embedding). -/
theorem empty_quiz_submit_nan_percentage
    (quizzes : List Quiz) (s : AppState) (c : String) (quiz : Quiz) (g : Bool)
    (hc : s.quizCode = some c)
    (hfind : quizzes.find? (fun q => q.code == c) = some quiz)
    (hempty : quiz.questions = []) :
    (fetchQuiz quizzes s).currentPage = "quizPage"
      ∧ (fetchQuiz quizzes s).timerActive = true
      ∧ (fetchQuiz quizzes s).questions = []
      ∧ (submitQuiz true g true (fetchQuiz quizzes s)).resultShown
          = some (0, 0)
      ∧ percentOf 0 0 = none := by
  have hqs : (fetchQuiz quizzes s).questions = [] := by
    simp [fetchQuiz, showAlert, hc, hfind, startQuiz, navigateTo,
      (loadQuestion_frame _ _).1, hempty]
  refine ⟨?_, ?_, hqs, ?_, rfl⟩
  · simp [fetchQuiz, showAlert, hc, hfind, startQuiz, navigateTo,
      (loadQuestion_frame _ _).2.2.1]
  · simp [fetchQuiz, showAlert, hc, hfind, startQuiz, navigateTo,
      (loadQuestion_frame _ _).2.2.2.1]
  · simp [submitQuiz, showResults, navigateTo, hqs, scoreAux]

/-- Witness for C10 at the empty sample quiz. -/
theorem empty_quiz_submit_nan_percentage_witness :
    (({ initialState with quizCode := some "222222" } : AppState).quizCode
          = some "222222"
        ∧ [emptyQuiz].find? (fun q => q.code == "222222") = some emptyQuiz
        ∧ emptyQuiz.questions = [])
      ∧ ((fetchQuiz [emptyQuiz]
              { initialState with quizCode := some "222222" }).currentPage
            = "quizPage"
          ∧ (fetchQuiz [emptyQuiz]
              { initialState with quizCode := some "222222" }).timerActive = true
          ∧ (fetchQuiz [emptyQuiz]
              { initialState with quizCode := some "222222" }).questions = []
          ∧ (submitQuiz true false true (fetchQuiz [emptyQuiz]
              { initialState with quizCode := some "222222" })).resultShown
            = some (0, 0)
          ∧ percentOf 0 0 = none) :=
  ⟨⟨rfl, by decide, rfl⟩,
    empty_quiz_submit_nan_percentage [emptyQuiz]
      { initialState with quizCode := some "222222" } "222222" emptyQuiz false
      rfl (by decide) rfl⟩
